import Mathlib

set_option autoImplicit false

/-!
Shallow embedding of `src/weapon/mod.rs` of the station-iapetus demo:
weapon state machine (`try_shoot`), hit resolver (`ray_hit`), the
generation-checked pool (`WeaponContainer`) and the serialization
round-trip of weapons.  Machine floats (`f32`/`f64`) are modelled as
exact rationals; external collaborators (scene graph reads, the physics
ray cast, the float `try_normalize`) enter as explicit parameters.
-/

/-- 3-component vector (components of `Vector3<f32>` modelled as rationals). -/
structure Vec3 where
  x : ℚ
  y : ℚ
  z : ℚ
deriving DecidableEq, Repr, Inhabited

def Vec3.zero : Vec3 := ⟨0, 0, 0⟩

/-- `Vector3::z()`, the canonical forward axis. -/
def Vec3.z_axis : Vec3 := ⟨0, 0, 1⟩

/-- `v.scale(k)` of rg3d vectors. -/
def Vec3.scale (v : Vec3) (k : ℚ) : Vec3 := ⟨v.x * k, v.y * k, v.z * k⟩

/-- Componentwise vector addition. -/
def Vec3.add (a b : Vec3) : Vec3 := ⟨a.x + b.x, a.y + b.y, a.z + b.z⟩

/-- rg3d `Handle<T>`: slot index plus generation counter. -/
structure Handle (α : Type) where
  index : Nat
  generation : Nat

instance {α : Type} : DecidableEq (Handle α) := fun x y =>
  decidable_of_iff (x.index = y.index ∧ x.generation = y.generation)
    (by cases x; cases y; simp)

instance {α : Type} : Inhabited (Handle α) := ⟨⟨0, 0⟩⟩

/-- `Handle::NONE` (index 0, `INVALID_GENERATION = 0`). -/
def Handle.NONE {α : Type} : Handle α := ⟨0, 0⟩

/-- `Handle::is_none`. -/
def Handle.is_none {α : Type} (h : Handle α) : Bool :=
  h.index == 0 && h.generation == 0

/-- `Handle::is_some`. -/
def Handle.is_some {α : Type} (h : Handle α) : Bool :=
  !h.is_none

/-- Phantom type for scene-graph nodes. -/
structure Node where

/-- Phantom type for physics colliders (`ColliderHandle` targets). -/
structure Collider where

/-- Phantom type for physics rigid bodies. -/
structure RigidBody where

/-- rapier `FeatureId` of the struck sub-feature. -/
inductive FeatureId where
  | Vertex (i : Nat)
  | Edge (i : Nat)
  | Face (i : Nat)
  | Unknown
deriving DecidableEq, Repr, Inhabited

/-- One slot of an rg3d `Pool`: generation counter plus optional payload. -/
structure PoolRecord (α : Type) where
  generation : Nat
  payload : Option α

/-- rg3d `Pool<T>`: records plus a stack of free slot indices (top at head). -/
structure Pool (α : Type) where
  records : List (PoolRecord α)
  free_stack : List Nat

/-- `Pool::new`. -/
def Pool.new {α : Type} : Pool α := ⟨[], []⟩

/-- `Pool::spawn`: reuse the top free slot (bumping its generation) or push a
new record with generation 1.  Returns the new pool and the issued handle. -/
def Pool.spawn {α : Type} (p : Pool α) (payload : α) : Pool α × Handle α :=
  match p.free_stack with
  | free_index :: rest =>
    let generation := (((p.records.get? free_index).map PoolRecord.generation).getD 0) + 1
    (⟨p.records.set free_index ⟨generation, some payload⟩, rest⟩,
     ⟨free_index, generation⟩)
  | [] =>
    (⟨p.records ++ [⟨1, some payload⟩], []⟩, ⟨p.records.length, 1⟩)

/-- `Pool::free`: clear the slot's payload and remember the index as free.
`none` models the panics (index out of bounds, double free). -/
def Pool.free {α : Type} (p : Pool α) (handle : Handle α) : Option (Pool α) :=
  match p.records.get? handle.index with
  | some record =>
    match record.payload with
    | some _ =>
      some ⟨p.records.set handle.index ⟨record.generation, none⟩,
            handle.index :: p.free_stack⟩
    | none => none
  | none => none

/-- `Pool::is_valid_handle`: slot exists, is occupied, and generations agree. -/
def Pool.is_valid_handle {α : Type} (p : Pool α) (handle : Handle α) : Bool :=
  match p.records.get? handle.index with
  | some record => record.payload.isSome && record.generation == handle.generation
  | none => false

/-- `Pool` indexing (`pool[handle]`); `none` models the borrow/dangling panics. -/
def Pool.index {α : Type} (p : Pool α) (handle : Handle α) : Option α :=
  match p.records.get? handle.index with
  | some record =>
    if record.generation == handle.generation then record.payload else none
  | none => none

/-- Modelled from the spec: `ProjectileKind` lives in the (absent)
`weapon/projectile.rs` module; only the `Plasma` variant is referenced. -/
inductive ProjectileKind where
  | Plasma
deriving DecidableEq, Repr, Inhabited

/-- Weapon actor owner placeholder; only `get_body` is used by this module. -/
structure Actor where
  body : Handle RigidBody
deriving DecidableEq, Inhabited

/-- Modelled from the spec: `GameTime` (crate root, outside `src/`); only the
`elapsed` timestamp is read by `try_shoot`. -/
structure GameTime where
  elapsed : ℚ
deriving DecidableEq, Repr, Inhabited

/-- `WeaponKind` enumeration. -/
inductive WeaponKind where
  | M4
  | Ak47
  | PlasmaRifle
deriving DecidableEq, Repr, Inhabited

/-- `WeaponKind::id`. -/
def WeaponKind.id : WeaponKind → Nat
  | .M4 => 0
  | .Ak47 => 1
  | .PlasmaRifle => 2

/-- `WeaponKind::new`: decode an integer id; unknown ids are an error. -/
def WeaponKind.new (id : Nat) : Except String WeaponKind :=
  match id with
  | 0 => .ok .M4
  | 1 => .ok .Ak47
  | 2 => .ok .PlasmaRifle
  | _ => .error ("unknown weapon kind " ++ toString id)

/-- `WeaponProjectile`: discrete projectile or instantaneous ray. -/
inductive WeaponProjectile where
  | Projectile (kind : ProjectileKind)
  | Ray (damage : ℚ)
deriving DecidableEq, Repr, Inhabited

/-- `WeaponDefinition`: static per-kind configuration. -/
structure WeaponDefinition where
  model : String
  shot_sound : String
  ammo : Nat
  projectile : WeaponProjectile
  shoot_interval : ℚ
deriving DecidableEq, Repr, Inhabited

/-- `LaserSight`: two scene-node handles. -/
structure LaserSight where
  ray : Handle Node
  tip : Handle Node
deriving DecidableEq, Inhabited

/-- `LaserSight` `Default`. -/
def LaserSight.default_ : LaserSight := ⟨Handle.NONE, Handle.NONE⟩

/-- The `Weapon` state; `sender : Option Unit` records presence of the event
channel (the channel itself is external, sends are collected as a list). -/
structure Weapon where
  kind : WeaponKind
  model : Handle Node
  shot_point : Handle Node
  muzzle_flash : Handle Node
  shot_light : Handle Node
  offset : Vec3
  dest_offset : Vec3
  last_shot_time : ℚ
  shot_position : Vec3
  owner : Handle Actor
  ammo : Nat
  muzzle_flash_timer : ℚ
  definition : WeaponDefinition
  sender : Option Unit
  flash_light : Handle Node
  laser_sight : LaserSight
deriving DecidableEq

/-- Modelled from the spec: the Event Channel message kinds emitted by
`try_shoot` (`crate::message::Message` is outside `src/`); fields are exactly
those passed at the call sites in `try_shoot`. -/
inductive Message where
  | PlaySound (path : String) (position : Vec3) (gain : ℚ)
      (rolloff_factor : ℚ) (radius : ℚ)
  | CreateProjectile (kind : ProjectileKind) (position : Vec3) (direction : Vec3)
      (owner : Handle Weapon) (initial_velocity : Vec3)
  | ShootRay (weapon : Handle Weapon) (ray_begin : Vec3) (ray_end : Vec3)
      (damage : ℚ)
deriving DecidableEq

/-- `Weapon::get_definition`: the static per-kind definition table. -/
def Weapon.get_definition : WeaponKind → WeaponDefinition
  | .M4 =>
    { model := "data/models/m4.FBX"
      shot_sound := "data/sounds/m4_shot.ogg"
      ammo := 200
      projectile := .Ray 15
      shoot_interval := 0.15 }
  | .Ak47 =>
    { model := "data/models/ak47.FBX"
      shot_sound := "data/sounds/ak47.ogg"
      ammo := 200
      projectile := .Ray 17
      shoot_interval := 0.15 }
  | .PlasmaRifle =>
    { model := "data/models/plasma_rifle.fbx"
      shot_sound := "data/sounds/plasma_shot.ogg"
      ammo := 100
      projectile := .Projectile .Plasma
      shoot_interval := 0.25 }

/-- `impl Default for Weapon`. -/
def defaultWeapon : Weapon :=
  { kind := .M4
    model := Handle.NONE
    offset := Vec3.zero
    shot_point := Handle.NONE
    dest_offset := Vec3.zero
    last_shot_time := 0
    shot_position := Vec3.zero
    owner := Handle.NONE
    ammo := 250
    muzzle_flash_timer := 0
    definition := Weapon.get_definition .M4
    sender := none
    muzzle_flash := Handle.NONE
    shot_light := Handle.NONE
    flash_light := Handle.NONE
    laser_sight := LaserSight.default_ }

instance : Inhabited Weapon := ⟨defaultWeapon⟩

/-- The direction actually emitted by `try_shoot`: the supplied direction (or
the weapon's forward-aim fallback), passed through the float
`try_normalize(EPSILON)` oracle, defaulting to `Vector3::z()` when
normalization fails. -/
def resolveShotDirection (direction : Option Vec3) (fallback : Vec3)
    (try_normalize : Vec3 → Option Vec3) : Vec3 :=
  match try_normalize (direction.getD fallback) with
  | some d => d
  | none => Vec3.z_axis

/-- `Weapon::try_shoot`.  External scene reads become parameters: `position`
is `get_shot_position(&scene.graph)`, `fallback_direction` is
`get_shot_direction(&scene.graph)`, and `try_normalize` is the float
normalization oracle.  Returns the updated weapon and the messages sent on
the event channel; `.error ()` models the `sender.as_ref().unwrap()` panic. -/
def Weapon.try_shoot (self : Weapon) (self_handle : Handle Weapon)
    (position : Vec3) (fallback_direction : Vec3) (time : GameTime)
    (direction : Option Vec3) (try_normalize : Vec3 → Option Vec3) :
    Except Unit (Weapon × List Message) :=
  if self.ammo ≠ 0 ∧ self.definition.shoot_interval ≤ time.elapsed - self.last_shot_time then
    match self.sender with
    | none => .error ()
    | some _ =>
      let self1 : Weapon :=
        { self with
          ammo := self.ammo - 1
          offset := ⟨0, 0, -(1/20)⟩
          last_shot_time := time.elapsed
          muzzle_flash_timer :=
            if self.muzzle_flash.is_some then 3/40 else self.muzzle_flash_timer }
      let sound : Message :=
        .PlaySound self.definition.shot_sound position 1 5 3
      let dir := resolveShotDirection direction fallback_direction try_normalize
      let second : Message :=
        match self.definition.projectile with
        | .Projectile projectile =>
          .CreateProjectile projectile position dir self_handle Vec3.zero
        | .Ray damage =>
          .ShootRay self_handle position (position.add (dir.scale 1000)) damage
      .ok (self1, [sound, second])
  else
    .ok (self, [])

/-- One record of a sorted ray-cast query buffer (rg3d `Intersection`). -/
structure Intersection where
  collider : Handle Collider
  normal : Vec3
  position : Vec3
  feature : FeatureId
  toi : ℚ
deriving DecidableEq, Inhabited

/-- `Hit`: result of a single ray resolution. -/
structure Hit where
  actor : Handle Actor
  who : Handle Actor
  position : Vec3
  normal : Vec3
  collider : Handle Collider
  feature : FeatureId
deriving DecidableEq, Inhabited

/-- `WeaponContainer`. -/
structure WeaponContainer where
  pool : Pool Weapon

/-- `WeaponContainer::new`. -/
def WeaponContainer.new : WeaponContainer := ⟨Pool.new⟩

/-- `WeaponContainer::add`. -/
def WeaponContainer.add (wc : WeaponContainer) (weapon : Weapon) :
    WeaponContainer × Handle Weapon :=
  let s := wc.pool.spawn weapon
  (⟨s.1⟩, s.2)

/-- `WeaponContainer::contains`. -/
def WeaponContainer.contains (wc : WeaponContainer) (weapon : Handle Weapon) : Bool :=
  wc.pool.is_valid_handle weapon

/-- `WeaponContainer::free`; `none` models the pool panics. -/
def WeaponContainer.free (wc : WeaponContainer) (weapon : Handle Weapon) :
    Option WeaponContainer :=
  (wc.pool.free weapon).map (fun p => ⟨p⟩)

/-- `impl Index for WeaponContainer`; `none` models the panics. -/
def WeaponContainer.index (wc : WeaponContainer) (weapon : Handle Weapon) :
    Option Weapon :=
  wc.pool.index weapon

/-- Inner actor scan of `ray_hit`: find the first actor whose body matches the
struck collider's parent, excluding the firing weapon's owner; returns the
matched actor handle and the owner.  `.error ()` models the pool-indexing
panic on a dangling weapon handle. -/
def findActorHit (weapons : WeaponContainer) (weapon : Handle Weapon)
    (body : Handle RigidBody) (actors : List (Handle Actor × Actor)) :
    Except Unit (Option (Handle Actor × Handle Actor)) :=
  match actors with
  | [] => .ok none
  | (actor_handle, actor) :: rest =>
    if actor.body = body ∧ weapon.is_some = true then
      match weapons.index weapon with
      | none => .error ()
      | some w =>
        if w.owner ≠ actor_handle then
          .ok (some (actor_handle, w.owner))
        else
          findActorHit weapons weapon body rest
    else
      findActorHit weapons weapon body rest

/-- `ray_hit`: the physics cast is external, so the distance-sorted
`query_buffer` and the collider-to-parent-body map are parameters; `actors`
is the `pair_iter()` sequence of the actor registry.  Takes the first result
whose collider is not the ignored one, classifies it against the actors, and
returns at most one `Hit` (`.error ()` models the dangling-handle panic). -/
def ray_hit (query_buffer : List Intersection)
    (collider_parent : Handle Collider → Handle RigidBody)
    (weapon : Handle Weapon) (weapons : WeaponContainer)
    (actors : List (Handle Actor × Actor))
    (ignored_collider : Handle Collider) : Except Unit (Option Hit) :=
  match query_buffer.filter (fun i => decide (i.collider ≠ ignored_collider)) with
  | [] => .ok none
  | hit :: _ =>
    match findActorHit weapons weapon (collider_parent hit.collider) actors with
    | .error e => .error e
    | .ok (some (actor_handle, owner)) =>
      .ok (some ⟨actor_handle, owner, hit.position, hit.normal, hit.collider, hit.feature⟩)
    | .ok none =>
      .ok (some ⟨Handle.NONE, Handle.NONE, hit.position, hit.normal, hit.collider, hit.feature⟩)

/-- The fields written by `impl Visit for Weapon` (serialized layout);
`shot_position`, `sender` and `definition` are not persisted. -/
structure SerializedWeapon where
  kindId : Nat
  model : Handle Node
  offset : Vec3
  dest_offset : Vec3
  last_shot_time : ℚ
  owner : Handle Actor
  ammo : Nat
  shot_point : Handle Node
  muzzle_flash : Handle Node
  muzzle_flash_timer : ℚ
  shot_light : Handle Node
  flash_light : Handle Node
  laser_sight_ray : Handle Node
  laser_sight_tip : Handle Node
deriving DecidableEq, Inhabited

/-- Writing direction of `impl Visit for Weapon`. -/
def encodeWeapon (w : Weapon) : SerializedWeapon :=
  { kindId := w.kind.id
    model := w.model
    offset := w.offset
    dest_offset := w.dest_offset
    last_shot_time := w.last_shot_time
    owner := w.owner
    ammo := w.ammo
    shot_point := w.shot_point
    muzzle_flash := w.muzzle_flash
    muzzle_flash_timer := w.muzzle_flash_timer
    shot_light := w.shot_light
    flash_light := w.flash_light
    laser_sight_ray := w.laser_sight.ray
    laser_sight_tip := w.laser_sight.tip }

/-- Reading direction of `impl Visit for Weapon`: start from `Default`,
decode the kind id (aborting on unknown ids, mirroring the `?` operator),
recompute `definition` from the kind, and fill the visited fields. -/
def decodeWeapon (s : SerializedWeapon) : Except String Weapon :=
  match WeaponKind.new s.kindId with
  | .error e => .error e
  | .ok kind => .ok { defaultWeapon with
    kind := kind
    definition := Weapon.get_definition kind
    model := s.model
    offset := s.offset
    dest_offset := s.dest_offset
    last_shot_time := s.last_shot_time
    owner := s.owner
    ammo := s.ammo
    shot_point := s.shot_point
    muzzle_flash := s.muzzle_flash
    muzzle_flash_timer := s.muzzle_flash_timer
    shot_light := s.shot_light
    flash_light := s.flash_light
    laser_sight := ⟨s.laser_sight_ray, s.laser_sight_tip⟩ }

/-- Decode one optional slot payload. -/
def decodePayload (os : Option SerializedWeapon) : Except String (Option Weapon) :=
  match os with
  | none => .ok none
  | some s =>
    match decodeWeapon s with
    | .error e => .error e
    | .ok w => .ok (some w)

/-- Serialized form of the weapon pool: per slot, the generation counter and
the optional serialized payload. -/
def encodePool (p : Pool Weapon) : List (Nat × Option SerializedWeapon) :=
  p.records.map (fun r => (r.generation, r.payload.map encodeWeapon))

/-- Reading direction of the pool's record list; aborts on the first weapon
that fails to decode. -/
def decodeRecords (l : List (Nat × Option SerializedWeapon)) :
    Except String (List (PoolRecord Weapon)) :=
  match l with
  | [] => .ok []
  | (g, os) :: rest =>
    match decodePayload os with
    | .error e => .error e
    | .ok payload =>
      match decodeRecords rest with
      | .error e => .error e
      | .ok tail => .ok (⟨g, payload⟩ :: tail)

/-- On load rg3d rebuilds the free stack by pushing every empty slot index in
ascending order (so the top of the stack is the highest empty index). -/
def rebuildFreeStack (records : List (PoolRecord Weapon)) : List Nat :=
  ((List.range records.length).filter (fun i =>
    match records.get? i with
    | some r => r.payload.isNone
    | none => false)).reverse

/-- Reading direction of `impl Visit for WeaponContainer`. -/
def decodePool (l : List (Nat × Option SerializedWeapon)) :
    Except String (Pool Weapon) :=
  match decodeRecords l with
  | .error e => .error e
  | .ok records => .ok ⟨records, rebuildFreeStack records⟩

instance {ε α : Type} [DecidableEq ε] [DecidableEq α] : DecidableEq (Except ε α)
  | .error e, .error f => decidable_of_iff (e = f) (by simp)
  | .error _, .ok _ => isFalse (fun h => Except.noConfusion h)
  | .ok _, .error _ => isFalse (fun h => Except.noConfusion h)
  | .ok a, .ok b => decidable_of_iff (a = b) (by simp)


/-- Weapon-field preservation relation of the serialization round trip: the
claimed fields survive unchanged and `definition` is recomputed from `kind`. -/
def weaponFieldsPreserved (w w' : Weapon) : Prop :=
  w'.kind = w.kind ∧ w'.ammo = w.ammo ∧ w'.owner = w.owner ∧
  w'.last_shot_time = w.last_shot_time ∧
  w'.muzzle_flash_timer = w.muzzle_flash_timer ∧
  w'.definition = Weapon.get_definition w'.kind

/-- Slot-level relation of the pool round trip: generation preserved, empty
slots stay empty, occupied slots hold a weapon with preserved fields. -/
def recordRoundTrip (r r' : PoolRecord Weapon) : Prop :=
  r'.generation = r.generation ∧
  ((r.payload = none ∧ r'.payload = none) ∨
   (∃ w w', r.payload = some w ∧ r'.payload = some w' ∧ weaponFieldsPreserved w w'))

/-- Weapon used by the C3 counterexample: default (M4) state with an event
channel attached but an empty magazine. -/
def emptyWeaponC3 : Weapon := { defaultWeapon with ammo := 0, sender := some () }

/-- Weapon used by the C4 scenario: fresh default (M4, shoot interval 0.15)
state with an event channel and a single round. -/
def freshWeaponC4 : Weapon := { defaultWeapon with ammo := 1, sender := some () }

/-- Query buffer of the concrete `ray_hit` scenario: a hit on the owner's
own collider at distance 2, then a hit on the enemy's collider at distance 5. -/
def queryBufferW : List Intersection :=
  [⟨⟨1, 1⟩, Vec3.z_axis, ⟨0, 0, 2⟩, .Face 0, 2⟩,
   ⟨⟨2, 1⟩, Vec3.z_axis, ⟨0, 0, 5⟩, .Face 1, 5⟩]

/-- Actor registry of the concrete `ray_hit` scenario: the enemy (body 2)
then the owner (body 1). -/
def actorsW : List (Handle Actor × Actor) :=
  [(⟨2, 1⟩, ⟨⟨2, 1⟩⟩), (⟨1, 1⟩, ⟨⟨1, 1⟩⟩)]

/-- Collider-to-parent-body map of the concrete `ray_hit` scenario. -/
def colliderParentW : Handle Collider → Handle RigidBody :=
  fun c => if c = ⟨2, 1⟩ then ⟨2, 1⟩ else ⟨1, 1⟩

/-- Weapon container of the concrete `ray_hit` scenario: one weapon owned by
actor (1, 1), held under handle (0, 1). -/
def weaponsW : WeaponContainer :=
  ⟨⟨[⟨1, some { defaultWeapon with owner := ⟨1, 1⟩ }⟩], []⟩⟩

/-! ## Helper lemmas about `try_shoot` -/

/-- Helper: when the gating condition fails, `try_shoot` is a pure no-op. -/
theorem tryShoot_noop (w : Weapon) (self_handle : Handle Weapon)
    (position fallback : Vec3) (time : GameTime) (direction : Option Vec3)
    (nf : Vec3 → Option Vec3)
    (h : ¬(w.ammo ≠ 0 ∧ w.definition.shoot_interval ≤ time.elapsed - w.last_shot_time)) :
    w.try_shoot self_handle position fallback time direction nf = .ok (w, []) := by
  simp only [Weapon.try_shoot, if_neg h]

/-- Helper: when the gating condition holds and a sender is present,
`try_shoot` returns the updated weapon and the two emitted messages. -/
theorem tryShoot_fire (w : Weapon) (self_handle : Handle Weapon)
    (position fallback : Vec3) (time : GameTime) (direction : Option Vec3)
    (nf : Vec3 → Option Vec3)
    (hs : w.sender = some ())
    (h : w.ammo ≠ 0 ∧ w.definition.shoot_interval ≤ time.elapsed - w.last_shot_time) :
    w.try_shoot self_handle position fallback time direction nf =
      .ok ({ w with
              ammo := w.ammo - 1
              offset := ⟨0, 0, -(1/20)⟩
              last_shot_time := time.elapsed
              muzzle_flash_timer :=
                if w.muzzle_flash.is_some then 3/40 else w.muzzle_flash_timer },
            [Message.PlaySound w.definition.shot_sound position 1 5 3,
             match w.definition.projectile with
             | .Projectile projectile =>
               Message.CreateProjectile projectile position
                 (resolveShotDirection direction fallback nf) self_handle Vec3.zero
             | .Ray damage =>
               Message.ShootRay self_handle position
                 (position.add ((resolveShotDirection direction fallback nf).scale 1000))
                 damage]) := by
  simp only [Weapon.try_shoot, if_pos h, hs]

/-! ## Claims about the weapon state machine -/

/-- Claim C2: whenever the weapon is not Ready (ammo is zero, or the elapsed
time since the last shot is below the shoot interval), `try_shoot` performs
no state change and emits no event: the weapon is returned unchanged in every
field and the message list is empty. -/
theorem try_shoot_not_ready_noop (w : Weapon) (self_handle : Handle Weapon)
    (position fallback : Vec3) (time : GameTime) (direction : Option Vec3)
    (nf : Vec3 → Option Vec3)
    (h : w.ammo = 0 ∨ time.elapsed - w.last_shot_time < w.definition.shoot_interval) :
    w.try_shoot self_handle position fallback time direction nf = .ok (w, []) := by
  refine tryShoot_noop w self_handle position fallback time direction nf ?_
  rintro ⟨ha, hr⟩
  rcases h with h | h
  · exact ha h
  · exact absurd hr (not_le.mpr h)

/-- Witness for C2: an Empty weapon (ammo zero) at time 1 is a no-op. -/
theorem try_shoot_not_ready_noop_witness :
    Weapon.try_shoot { defaultWeapon with ammo := 0, sender := some () } Handle.NONE
      Vec3.zero Vec3.zero ⟨1⟩ none (fun _ => none) =
      .ok ({ defaultWeapon with ammo := 0, sender := some () }, []) :=
  try_shoot_not_ready_noop _ _ _ _ _ _ _ (Or.inl rfl)

/-- Claim C5: a Ready weapon (with an event channel attached) fired at `now`
loses exactly one round of ammo, records `now` as its last shot time, emits a
play-sound event first, and then either a spawn-projectile event (discrete
projectile definition) or a resolve-hitscan event whose begin is the shot
origin, whose end is origin plus direction scaled by 1000, and whose damage
is the definition's fixed damage value. -/
theorem try_shoot_ready_effects (w : Weapon) (self_handle : Handle Weapon)
    (position fallback : Vec3) (time : GameTime) (direction : Option Vec3)
    (nf : Vec3 → Option Vec3)
    (hs : w.sender = some ()) (ha : w.ammo ≠ 0)
    (hr : w.definition.shoot_interval ≤ time.elapsed - w.last_shot_time) :
    ∃ w' second,
      w.try_shoot self_handle position fallback time direction nf =
        .ok (w', [Message.PlaySound w.definition.shot_sound position 1 5 3, second]) ∧
      w'.ammo + 1 = w.ammo ∧ w'.last_shot_time = time.elapsed ∧
      (∀ p, w.definition.projectile = .Projectile p →
        second = Message.CreateProjectile p position
          (resolveShotDirection direction fallback nf) self_handle Vec3.zero) ∧
      (∀ d, w.definition.projectile = .Ray d →
        second = Message.ShootRay self_handle position
          (position.add ((resolveShotDirection direction fallback nf).scale 1000)) d) := by
  refine ⟨_, _,
    tryShoot_fire w self_handle position fallback time direction nf hs ⟨ha, hr⟩,
    ?_, rfl, ?_, ?_⟩
  · exact Nat.succ_pred_eq_of_pos (Nat.pos_of_ne_zero ha)
  · intro p hp; simp only [hp]
  · intro d hd; simp only [hd]

/-- Witness for C5: the default M4 weapon with a sender, fired at time 1. -/
theorem try_shoot_ready_effects_witness :
    ∃ w' second,
      Weapon.try_shoot { defaultWeapon with sender := some () } Handle.NONE
        Vec3.zero Vec3.zero ⟨1⟩ none (fun _ => none) =
        .ok (w', [Message.PlaySound
          { defaultWeapon with sender := some () }.definition.shot_sound
          Vec3.zero 1 5 3, second]) ∧
      w'.ammo + 1 = { defaultWeapon with sender := some () }.ammo ∧
      w'.last_shot_time = (1 : ℚ) ∧
      (∀ p, { defaultWeapon with sender := some () }.definition.projectile =
          .Projectile p →
        second = Message.CreateProjectile p Vec3.zero
          (resolveShotDirection none Vec3.zero (fun _ => none)) Handle.NONE Vec3.zero) ∧
      (∀ d, { defaultWeapon with sender := some () }.definition.projectile = .Ray d →
        second = Message.ShootRay Handle.NONE Vec3.zero
          (Vec3.zero.add ((resolveShotDirection none Vec3.zero (fun _ => none)).scale 1000))
          d) :=
  try_shoot_ready_effects _ _ _ _ ⟨1⟩ _ _ rfl (by decide)
    (by norm_num [defaultWeapon, Weapon.get_definition])

/-- Claim C10: a weapon whose `sender` is `None` — the state produced by
`Default` and left in place by deserialization, which never restores the
sender — panics at the `sender` unwrap when `try_shoot` is called in the
Ready state; a successful fire requires a present sender. -/
theorem try_shoot_missing_sender_panics :
    defaultWeapon.sender = none ∧
    (∀ (s : SerializedWeapon) (w' : Weapon), decodeWeapon s = .ok w' →
      w'.sender = none) ∧
    (∀ (w : Weapon) (self_handle : Handle Weapon) (position fallback : Vec3)
        (time : GameTime) (direction : Option Vec3) (nf : Vec3 → Option Vec3),
      w.sender = none → w.ammo ≠ 0 →
      w.definition.shoot_interval ≤ time.elapsed - w.last_shot_time →
      w.try_shoot self_handle position fallback time direction nf = .error ()) := by
  refine ⟨rfl, ?_, ?_⟩
  · intro s w' h
    rw [decodeWeapon] at h
    cases hk : WeaponKind.new s.kindId with
    | error e => rw [hk] at h; exact absurd h (by simp)
    | ok k =>
      rw [hk] at h
      cases h
      rfl
  · intro w self_handle position fallback time direction nf hs ha hr
    simp only [Weapon.try_shoot, if_pos (And.intro ha hr), hs]

/-- Witness for C10: the default weapon itself (sender `None`, 250 rounds,
Ready at time 1) panics, and a decoded all-zero record has no sender. -/
theorem try_shoot_missing_sender_panics_witness :
    defaultWeapon.sender = none ∧
    (∀ w' : Weapon, decodeWeapon (default : SerializedWeapon) = .ok w' →
      w'.sender = none) ∧
    Weapon.try_shoot defaultWeapon Handle.NONE Vec3.zero Vec3.zero ⟨1⟩ none
      (fun _ => none) = .error () :=
  ⟨try_shoot_missing_sender_panics.1,
   fun w' => try_shoot_missing_sender_panics.2.1 (default : SerializedWeapon) w',
   try_shoot_missing_sender_panics.2.2 defaultWeapon Handle.NONE Vec3.zero Vec3.zero
     ⟨1⟩ none (fun _ => none) rfl (by decide)
     (by norm_num [defaultWeapon, Weapon.get_definition])⟩

/-- Counterexample to C3 as stated: for the Empty weapon `emptyWeaponC3` two
calls at times 1 and 11/10 (which satisfy `now1 < now2` and
`now2 - now1 < shoot_interval`) produce zero successful fires, not exactly
one: both calls return the weapon unchanged with no events. -/
theorem try_shoot_two_calls_cex :
    (1 : ℚ) < 11/10 ∧
    (11/10 : ℚ) - 1 < emptyWeaponC3.definition.shoot_interval ∧
    Weapon.try_shoot emptyWeaponC3 Handle.NONE Vec3.zero Vec3.zero ⟨1⟩ none
      (fun _ => none) = .ok (emptyWeaponC3, []) ∧
    Weapon.try_shoot emptyWeaponC3 Handle.NONE Vec3.zero Vec3.zero ⟨11/10⟩ none
      (fun _ => none) = .ok (emptyWeaponC3, []) := by
  refine ⟨by norm_num, by norm_num [emptyWeaponC3, defaultWeapon, Weapon.get_definition],
    tryShoot_noop _ _ _ _ _ _ _ (fun h => h.1 rfl),
    tryShoot_noop _ _ _ _ _ _ _ (fun h => h.1 rfl)⟩

/-- Claim C3 as amended: for every weapon that is Ready at `now1` (non-empty
magazine, cooldown expired, event channel present), calling `try_shoot` at
`now1` and then at `now2` with `now1 < now2` and
`now2 - now1 < shoot_interval` produces exactly one successful fire — the
first call fires (events are emitted and ammo drops by one) and the second
call is a no-op with no events. -/
theorem try_shoot_two_calls_amended (w : Weapon) (self_handle : Handle Weapon)
    (position fallback : Vec3) (now1 now2 : ℚ) (direction : Option Vec3)
    (nf : Vec3 → Option Vec3)
    (hs : w.sender = some ()) (ha : w.ammo ≠ 0)
    (hr : w.definition.shoot_interval ≤ now1 - w.last_shot_time)
    (h12 : now1 < now2)
    (hlt : now2 - now1 < w.definition.shoot_interval) :
    ∃ w1 sound second,
      w.try_shoot self_handle position fallback ⟨now1⟩ direction nf =
        .ok (w1, [sound, second]) ∧
      w1.ammo + 1 = w.ammo ∧ w1.last_shot_time = now1 ∧
      w1.try_shoot self_handle position fallback ⟨now2⟩ direction nf =
        .ok (w1, []) := by
  refine ⟨_, _, _, tryShoot_fire w self_handle position fallback ⟨now1⟩ direction nf hs
    ⟨ha, hr⟩, Nat.succ_pred_eq_of_pos (Nat.pos_of_ne_zero ha), rfl, ?_⟩
  refine tryShoot_noop _ _ _ _ _ _ _ ?_
  rintro ⟨-, hr2⟩
  exact absurd hr2 (not_le.mpr hlt)

/-- Witness for the amended C3: the default M4 weapon with a sender, fired
at time 0.15 and again at time 0.2. -/
theorem try_shoot_two_calls_amended_witness :
    ∃ w1 sound second,
      Weapon.try_shoot { defaultWeapon with sender := some () } Handle.NONE
        Vec3.zero Vec3.zero ⟨3/20⟩ none (fun _ => none) = .ok (w1, [sound, second]) ∧
      w1.ammo + 1 = { defaultWeapon with sender := some () }.ammo ∧
      w1.last_shot_time = (3/20 : ℚ) ∧
      Weapon.try_shoot w1 Handle.NONE Vec3.zero Vec3.zero ⟨1/5⟩ none
        (fun _ => none) = .ok (w1, []) :=
  try_shoot_two_calls_amended _ _ _ _ (3/20) (1/5) _ _ rfl (by decide)
    (by norm_num [defaultWeapon, Weapon.get_definition]) (by norm_num)
    (by norm_num [defaultWeapon, Weapon.get_definition])

/-- Counterexample to C4 as stated: the freshly created weapon (last shot
time 0) does NOT fire at t = 0: `try_shoot` is a no-op because
`0 - last_shot_time = 0` is below the 0.15 shoot interval, so ammo stays 1
and no event is emitted, contradicting "fires successfully (ammo becomes 0)". -/
theorem fresh_weapon_scenario_cex :
    Weapon.try_shoot freshWeaponC4 Handle.NONE Vec3.zero Vec3.zero ⟨0⟩ none
      (fun _ => none) = .ok (freshWeaponC4, []) ∧ freshWeaponC4.ammo = 1 := by
  refine ⟨tryShoot_noop _ _ _ _ _ _ _ ?_, rfl⟩
  rintro ⟨-, hr⟩
  revert hr
  norm_num [freshWeaponC4, defaultWeapon, Weapon.get_definition]

/-- Claim C4 as amended: the fresh weapon (shoot interval 0.15, ammo 1,
last shot time 0) fired at t = 0.15 — the earliest instant its cooldown
admits — succeeds and ammo becomes 0; a second call 0.1 later (t = 0.25) is
a no-op, and a third call at t = 0.35 is a no-op (ammo is 0). -/
theorem fresh_weapon_scenario_amended :
    ∃ w1 sound second,
      Weapon.try_shoot freshWeaponC4 Handle.NONE Vec3.zero Vec3.zero ⟨3/20⟩ none
        (fun _ => none) = .ok (w1, [sound, second]) ∧
      w1.ammo = 0 ∧
      Weapon.try_shoot w1 Handle.NONE Vec3.zero Vec3.zero ⟨1/4⟩ none
        (fun _ => none) = .ok (w1, []) ∧
      Weapon.try_shoot w1 Handle.NONE Vec3.zero Vec3.zero ⟨7/20⟩ none
        (fun _ => none) = .ok (w1, []) := by
  refine ⟨_, _, _, tryShoot_fire freshWeaponC4 _ _ _ _ _ _ rfl
    ⟨by decide, by norm_num [freshWeaponC4, defaultWeapon, Weapon.get_definition]⟩,
    rfl,
    tryShoot_noop _ _ _ _ _ _ _ (fun h => h.1 rfl),
    tryShoot_noop _ _ _ _ _ _ _ (fun h => h.1 rfl)⟩

/-! ## Claims about kind decoding and serialization -/

/-- Claim C7: `WeaponKind::new` is a partial inverse of `WeaponKind::id` —
decoding the id of any kind returns that kind, any id outside the closed set
of known ids is a decode error, and such an error aborts deserialization of
the weapon. -/
theorem weapon_kind_codec :
    (∀ k : WeaponKind, WeaponKind.new k.id = .ok k) ∧
    (∀ i : Nat, (∀ k : WeaponKind, k.id ≠ i) →
      WeaponKind.new i = .error ("unknown weapon kind " ++ toString i)) ∧
    (∀ s : SerializedWeapon, (∀ k : WeaponKind, k.id ≠ s.kindId) →
      decodeWeapon s = .error ("unknown weapon kind " ++ toString s.kindId)) := by
  have hnew : ∀ i : Nat, (∀ k : WeaponKind, k.id ≠ i) →
      WeaponKind.new i = .error ("unknown weapon kind " ++ toString i) := by
    intro i hk
    have h0 := hk .M4
    have h1 := hk .Ak47
    have h2 := hk .PlasmaRifle
    simp only [WeaponKind.id] at h0 h1 h2
    obtain ⟨n, rfl⟩ : ∃ n, i = n + 3 := by
      refine ⟨i - 3, ?_⟩
      omega
    rfl
  refine ⟨fun k => by cases k <;> rfl, hnew, ?_⟩
  intro s hk
  rw [decodeWeapon, hnew s.kindId hk]

/-- Witness for C7: round trip at `Ak47`, decode failure at the unknown id 7,
and an aborted weapon deserialization for a serialized record with kind id 7. -/
theorem weapon_kind_codec_witness :
    WeaponKind.new (WeaponKind.id .Ak47) = .ok .Ak47 ∧
    WeaponKind.new 7 = .error ("unknown weapon kind " ++ toString 7) ∧
    decodeWeapon { (default : SerializedWeapon) with kindId := 7 } =
      .error ("unknown weapon kind " ++
        toString ({ (default : SerializedWeapon) with kindId := 7 }).kindId) :=
  ⟨weapon_kind_codec.1 .Ak47,
   weapon_kind_codec.2.1 7 (fun k => by cases k <;> decide),
   weapon_kind_codec.2.2 { (default : SerializedWeapon) with kindId := 7 }
     (fun k => by cases k <;> decide)⟩

/-- Claim C8: freeing a valid handle makes `contains` false and `index` fail,
and both stay that way after a new weapon is spawned into the same slot (the
spawn reuses the freed slot but bumps its generation, so the stale handle
never aliases the new weapon). -/
theorem container_free_invalidates (wc : WeaponContainer) (h : Handle Weapon)
    (hv : wc.contains h = true) :
    ∃ wc1, wc.free h = some wc1 ∧
      wc1.contains h = false ∧ wc1.index h = none ∧
      ∀ w : Weapon,
        (wc1.add w).2.index = h.index ∧
        (wc1.add w).1.contains h = false ∧
        (wc1.add w).1.index h = none := by
  unfold WeaponContainer.contains Pool.is_valid_handle at hv
  rw [List.get?_eq_getElem?] at hv
  cases hrec : wc.pool.records[h.index]? with
  | none => rw [hrec] at hv; exact absurd hv (by simp)
  | some record =>
    rw [hrec] at hv
    rw [Bool.and_eq_true] at hv
    obtain ⟨hpay, hgen⟩ := hv
    have hgen' : record.generation = h.generation := by simpa using hgen
    obtain ⟨hlt, -⟩ := List.getElem?_eq_some.mp hrec
    cases hp : record.payload with
    | none => rw [hp] at hpay; exact absurd hpay (by simp)
    | some w0 =>
      -- the freed pool
      have hfree : wc.free h =
          some ⟨⟨wc.pool.records.set h.index ⟨record.generation, none⟩,
                 h.index :: wc.pool.free_stack⟩⟩ := by
        simp only [WeaponContainer.free, Pool.free, List.get?_eq_getElem?, hrec, hp]
        rfl
      refine ⟨_, hfree, ?_, ?_, ?_⟩
      · unfold WeaponContainer.contains Pool.is_valid_handle
        rw [List.get?_eq_getElem?, List.getElem?_set_eq_of_lt _ hlt]
        simp
      · unfold WeaponContainer.index Pool.index
        rw [List.get?_eq_getElem?, List.getElem?_set_eq_of_lt _ hlt]
        simp
      · intro w
        have hlt1 : h.index <
            (wc.pool.records.set h.index ⟨record.generation, none⟩).length := by
          rw [List.length_set]; exact hlt
        have hspawn :
            (⟨⟨wc.pool.records.set h.index ⟨record.generation, none⟩,
               h.index :: wc.pool.free_stack⟩⟩ : WeaponContainer).add w =
            (⟨⟨(wc.pool.records.set h.index ⟨record.generation, none⟩).set h.index
                 ⟨record.generation + 1, some w⟩,
               wc.pool.free_stack⟩⟩,
             ⟨h.index, record.generation + 1⟩) := by
          unfold WeaponContainer.add Pool.spawn
          simp only [List.get?_eq_getElem?, List.getElem?_set_eq_of_lt _ hlt]
          rfl
        rw [hspawn]
        refine ⟨rfl, ?_, ?_⟩
        · unfold WeaponContainer.contains Pool.is_valid_handle
          rw [List.get?_eq_getElem?, List.getElem?_set_eq_of_lt _ hlt1]
          simp [← hgen']
        · unfold WeaponContainer.index Pool.index
          rw [List.get?_eq_getElem?, List.getElem?_set_eq_of_lt _ hlt1]
          simp [← hgen']

/-- Witness for C8: a one-slot container holding the default weapon under
handle (0, 1). -/
theorem container_free_invalidates_witness :
    ∃ wc1, WeaponContainer.free ⟨⟨[⟨1, some defaultWeapon⟩], []⟩⟩ ⟨0, 1⟩ = some wc1 ∧
      wc1.contains ⟨0, 1⟩ = false ∧ wc1.index ⟨0, 1⟩ = none ∧
      ∀ w : Weapon,
        (wc1.add w).2.index = (⟨0, 1⟩ : Handle Weapon).index ∧
        (wc1.add w).1.contains ⟨0, 1⟩ = false ∧
        (wc1.add w).1.index ⟨0, 1⟩ = none :=
  container_free_invalidates ⟨⟨[⟨1, some defaultWeapon⟩], []⟩⟩ ⟨0, 1⟩ rfl

/-! ## Serialization round trip -/

/-- Helper: decoding an id produced by `WeaponKind::id` recovers the kind. -/
theorem weaponKind_new_id (k : WeaponKind) : WeaponKind.new k.id = .ok k := by
  cases k <;> rfl

/-- Helper: decoding an encoded weapon succeeds and preserves the claimed
fields, with `definition` recomputed from the kind. -/
theorem decodeWeapon_encodeWeapon (w : Weapon) :
    ∃ w', decodeWeapon (encodeWeapon w) = .ok w' ∧ weaponFieldsPreserved w w' := by
  have hk : WeaponKind.new (encodeWeapon w).kindId = .ok w.kind :=
    weaponKind_new_id w.kind
  refine ⟨{ defaultWeapon with
      kind := w.kind
      definition := Weapon.get_definition w.kind
      model := w.model
      offset := w.offset
      dest_offset := w.dest_offset
      last_shot_time := w.last_shot_time
      owner := w.owner
      ammo := w.ammo
      shot_point := w.shot_point
      muzzle_flash := w.muzzle_flash
      muzzle_flash_timer := w.muzzle_flash_timer
      shot_light := w.shot_light
      flash_light := w.flash_light
      laser_sight := ⟨w.laser_sight.ray, w.laser_sight.tip⟩ }, ?_, ?_⟩
  · simp only [decodeWeapon, hk]
    rfl
  · exact ⟨rfl, rfl, rfl, rfl, rfl, rfl⟩

/-- Helper: decoding the encoded record list succeeds and every slot is
related by `recordRoundTrip` to its pre-image. -/
theorem decodeRecords_encode (l : List (PoolRecord Weapon)) :
    ∃ recs, decodeRecords
        (l.map (fun r => (r.generation, r.payload.map encodeWeapon))) = .ok recs ∧
      List.Forall₂ recordRoundTrip l recs := by
  induction l with
  | nil => exact ⟨[], rfl, .nil⟩
  | cons r rest ih =>
    obtain ⟨recs, hd, hf⟩ := ih
    cases hp : r.payload with
    | none =>
      refine ⟨⟨r.generation, none⟩ :: recs, ?_, .cons ⟨rfl, .inl ⟨hp, rfl⟩⟩ hf⟩
      simp only [List.map_cons, decodeRecords, hp, Option.map_none', decodePayload, hd]
    | some w =>
      obtain ⟨w', hw, hfields⟩ := decodeWeapon_encodeWeapon w
      refine ⟨⟨r.generation, some w'⟩ :: recs, ?_,
        .cons ⟨rfl, .inr ⟨w, w', hp, rfl, hfields⟩⟩ hf⟩
      simp only [List.map_cons, decodeRecords, hp, Option.map_some', decodePayload,
        hw, hd]

/-- Claim C9: serializing a weapon pool and deserializing it succeeds and is
the identity on `kind`, `ammo`, `owner`, `last_shot_time` and
`muzzle_flash_timer` of every contained weapon (empty slots stay empty,
generations are preserved), while each decoded weapon's `definition` is
recomputed from its `kind` by the static lookup table rather than read from
the serialized data. -/
theorem weapon_pool_round_trip (p : Pool Weapon) :
    ∃ p' : Pool Weapon, decodePool (encodePool p) = .ok p' ∧
      List.Forall₂ recordRoundTrip p.records p'.records := by
  obtain ⟨recs, hd, hf⟩ := decodeRecords_encode p.records
  refine ⟨⟨recs, rebuildFreeStack recs⟩, ?_, hf⟩
  simp only [decodePool, encodePool, hd]

/-! ## Hit resolver -/

/-- Helper: in a list sorted by `f`, the head of the filtered list is
`f`-minimal among all elements satisfying the filter. -/
theorem filter_head_min {α : Type} (f : α → ℚ) (p : α → Bool) :
    ∀ (l : List α) (x : α) (r : List α),
      List.Sorted (fun a b => f a ≤ f b) l →
      l.filter p = x :: r →
      ∀ i ∈ l, p i = true → f x ≤ f i := by
  intro l
  induction l with
  | nil => intro x r _ hf; simp at hf
  | cons a t ih =>
    intro x r hs hf i hi hp
    rw [List.sorted_cons] at hs
    obtain ⟨ha, ht⟩ := hs
    rw [List.filter_cons] at hf
    by_cases hpa : p a = true
    · rw [if_pos hpa] at hf
      injection hf with h1 h2
      subst h1
      rcases List.mem_cons.mp hi with rfl | hit
      · exact le_refl _
      · exact ha i hit
    · rw [if_neg hpa] at hf
      rcases List.mem_cons.mp hi with rfl | hit
      · exact absurd hp hpa
      · exact ih x r ht hf i hit hp

/-- Helper: with a valid weapon handle the actor scan never panics. -/
theorem findActorHit_ok (weapons : WeaponContainer) (weapon : Handle Weapon)
    (body : Handle RigidBody) (w0 : Weapon)
    (hw : weapons.index weapon = some w0) :
    ∀ actors : List (Handle Actor × Actor),
      ∃ r, findActorHit weapons weapon body actors = .ok r := by
  intro actors
  induction actors with
  | nil => exact ⟨none, rfl⟩
  | cons q rest ih =>
    obtain ⟨qh, qa⟩ := q
    by_cases hc : qa.body = body ∧ weapon.is_some = true
    · simp only [findActorHit, if_pos hc, hw]
      by_cases ho : w0.owner ≠ qh
      · exact ⟨_, by rw [if_pos ho]⟩
      · rw [if_neg ho]; exact ih
    · simp only [findActorHit, if_neg hc]; exact ih

/-- Helper: when every actor whose body matches is the weapon's owner, the
actor scan reports no actor hit. -/
theorem findActorHit_env (weapons : WeaponContainer) (weapon : Handle Weapon)
    (body : Handle RigidBody) (w0 : Weapon)
    (hw : weapons.index weapon = some w0) :
    ∀ actors : List (Handle Actor × Actor),
      (∀ q ∈ actors, q.2.body = body → q.1 = w0.owner) →
      findActorHit weapons weapon body actors = .ok none := by
  intro actors
  induction actors with
  | nil => intro _; rfl
  | cons q rest ih =>
    intro hall
    obtain ⟨qh, qa⟩ := q
    have hrest : ∀ q ∈ rest, (q : Handle Actor × Actor).2.body = body →
        q.1 = w0.owner :=
      fun q hq hb => hall q (List.mem_cons_of_mem _ hq) hb
    by_cases hc : qa.body = body ∧ weapon.is_some = true
    · simp only [findActorHit, if_pos hc, hw]
      have hqh : qh = w0.owner := hall (qh, qa) (List.mem_cons_self _ _) hc.1
      rw [if_neg (by simp [hqh])]
      exact ih hrest
    · simp only [findActorHit, if_neg hc]; exact ih hrest

/-- Claim C1: for a distance-sorted query buffer whose first non-ignored
result is `hit0`, `ray_hit` returns a `Hit` carrying exactly `hit0`'s
position, normal, collider and feature — `hit0` being nearest among all
qualifying results — and when every actor whose body owns that collider is
the firing weapon's owner, the returned `Hit` is environment-classified
(`actor` = none) at that same result, without advancing to a farther one. -/
theorem ray_hit_nearest_qualifying
    (query_buffer : List Intersection)
    (collider_parent : Handle Collider → Handle RigidBody)
    (weapon : Handle Weapon) (weapons : WeaponContainer)
    (actors : List (Handle Actor × Actor))
    (ignored_collider : Handle Collider)
    (hit0 : Intersection) (rest : List Intersection) (w0 : Weapon)
    (hsort : List.Sorted (fun a b : Intersection => a.toi ≤ b.toi) query_buffer)
    (hq : query_buffer.filter (fun i => decide (i.collider ≠ ignored_collider)) =
      hit0 :: rest)
    (hw : weapons.index weapon = some w0) :
    (∃ ht, ray_hit query_buffer collider_parent weapon weapons actors ignored_collider
        = .ok (some ht) ∧
      ht.position = hit0.position ∧ ht.normal = hit0.normal ∧
      ht.collider = hit0.collider ∧ ht.feature = hit0.feature) ∧
    (∀ i ∈ query_buffer, i.collider ≠ ignored_collider → hit0.toi ≤ i.toi) ∧
    ((∀ q ∈ actors, q.2.body = collider_parent hit0.collider → q.1 = w0.owner) →
      ray_hit query_buffer collider_parent weapon weapons actors ignored_collider
        = .ok (some ⟨Handle.NONE, Handle.NONE, hit0.position, hit0.normal,
                     hit0.collider, hit0.feature⟩)) := by
  refine ⟨?_, ?_, ?_⟩
  · obtain ⟨r, hr⟩ :=
      findActorHit_ok weapons weapon (collider_parent hit0.collider) w0 hw actors
    simp only [ray_hit, hq, hr]
    cases r with
    | none => exact ⟨_, rfl, rfl, rfl, rfl, rfl⟩
    | some pr =>
      obtain ⟨ah, ow⟩ := pr
      exact ⟨_, rfl, rfl, rfl, rfl, rfl⟩
  · intro i hi hni
    exact filter_head_min (fun i => i.toi) _ query_buffer hit0 rest hsort hq i hi
      (decide_eq_true hni)
  · intro hall
    have henv := findActorHit_env weapons weapon (collider_parent hit0.collider)
      w0 hw actors hall
    simp only [ray_hit, hq, henv]

/-- Witness for C1: the two-result scenario — owner collider at distance 2
(ignored), enemy collider at distance 5 — with the weapon held under handle
(0, 1) and owned by actor (1, 1). -/
theorem ray_hit_nearest_qualifying_witness :
    (∃ ht, ray_hit queryBufferW colliderParentW ⟨0, 1⟩ weaponsW actorsW ⟨1, 1⟩
        = .ok (some ht) ∧
      ht.position = (⟨0, 0, 5⟩ : Vec3) ∧ ht.normal = Vec3.z_axis ∧
      ht.collider = (⟨2, 1⟩ : Handle Collider) ∧ ht.feature = .Face 1) ∧
    (∀ i ∈ queryBufferW, i.collider ≠ (⟨1, 1⟩ : Handle Collider) →
      (5 : ℚ) ≤ i.toi) ∧
    ((∀ q ∈ actorsW, q.2.body = colliderParentW ⟨2, 1⟩ →
        q.1 = ({ defaultWeapon with owner := ⟨1, 1⟩ } : Weapon).owner) →
      ray_hit queryBufferW colliderParentW ⟨0, 1⟩ weaponsW actorsW ⟨1, 1⟩
        = .ok (some ⟨Handle.NONE, Handle.NONE, ⟨0, 0, 5⟩, Vec3.z_axis,
                     ⟨2, 1⟩, .Face 1⟩)) :=
  ray_hit_nearest_qualifying queryBufferW colliderParentW ⟨0, 1⟩ weaponsW actorsW
    ⟨1, 1⟩ ⟨⟨2, 1⟩, Vec3.z_axis, ⟨0, 0, 5⟩, .Face 1, 5⟩ [] 
    { defaultWeapon with owner := ⟨1, 1⟩ }
    (by norm_num [queryBufferW, List.sorted_cons]) (by decide) rfl
